import Mathlib

/-!
Shallow embedding of the snake simulation core of `src/src/main.rs`
(Rusty-Snake). The Bevy entity/component plumbing is flattened away: the
`SnakeState` resource together with the `GridPosition` components carried by
the head and segment entities becomes one `Snake` record, and each system
becomes a pure state-transition function. Machine integers are modelled
explicitly: grid coordinates are `i32` (Int with two's-complement wraparound
on addition) and the growth counter is `u32` (Nat taken modulo 2^32 on
increment).
-/

namespace RustySnake

/-- Grid side length, from `const NUM_CELLS : i32 = 20`. -/
def NUM_CELLS : Int := 20

/-- Movement directions, from `enum Direction { None, Up, Down, Left, Right }`. -/
inductive Direction where
  | none
  | up
  | down
  | left
  | right
deriving DecidableEq

/-- Unit delta of a direction, from `Direction::delta`. -/
def Direction.delta : Direction → Int × Int
  | Direction.none => (0, 0)
  | Direction.up => (0, 1)
  | Direction.down => (0, -1)
  | Direction.left => (-1, 0)
  | Direction.right => (1, 0)

/-- Opposite-direction test, from `Direction::is_opposite` (the four listed
pairs match, everything else — None included — does not). -/
def Direction.is_opposite : Direction → Direction → Bool
  | Direction.up, Direction.down => true
  | Direction.down, Direction.up => true
  | Direction.left, Direction.right => true
  | Direction.right, Direction.left => true
  | _, _ => false

/-- Cell position on the grid, from `struct GridPosition { x : i32, y : i32 }`. -/
@[ext]
structure GridPosition where
  x : Int
  y : Int
deriving DecidableEq

/-- Two's-complement wraparound into the `i32` range, modelling Rust
release-mode `i32` addition overflow in `move_snake_sys`. -/
def wrap32 (z : Int) : Int := (z + 2 ^ 31) % 2 ^ 32 - 2 ^ 31

/-- Starting position of the snake, from
`const SNAKE_START_POS : GridPosition = GridPosition { x : NUM_CELLS / 2, y : NUM_CELLS / 2 }`. -/
def SNAKE_START_POS : GridPosition := { x := NUM_CELLS / 2, y := NUM_CELLS / 2 }

/-- Simulation state: the `SnakeState` resource (`dir`, `next_dir`,
`segments`, `grow`) with the entity handles replaced by the `GridPosition`
values they carry, plus the head entity's `GridPosition`. Segments are kept
head-to-tail, as in `SnakeState.segments`. -/
structure Snake where
  head : GridPosition
  segments : List GridPosition
  dir : Direction
  next_dir : Direction
  grow : Nat
deriving DecidableEq

/-- Input resolver, from `get_input_sys`: every arrow-key branch assigns
`next_dir` to the pressed direction under the same guard
`!snake.dir.is_opposite(requested) && snake.dir == snake.next_dir`;
otherwise the state is untouched. -/
def request_direction (s : Snake) (d : Direction) : Snake :=
  if ¬ s.dir.is_opposite d ∧ s.dir = s.next_dir then { s with next_dir := d } else s

/-- Segment shift loop of `move_snake_sys`: walking the segment list
head-to-tail, every segment takes the previous position of its predecessor,
seeded with the old head position. -/
def shiftSegments : GridPosition → List GridPosition → List GridPosition
  | _, [] => []
  | prev, p :: rest => prev :: shiftSegments p rest

/-- Movement engine, from `move_snake_sys`: commit `next_dir` into `dir`,
move the head by the delta of the committed direction (`i32` addition), then
shift the body segments. -/
def move_snake (s : Snake) : Snake :=
  let d := s.next_dir.delta
  { s with
      dir := s.next_dir,
      head := { x := wrap32 (s.head.x + d.1), y := wrap32 (s.head.y + d.2) },
      segments := shiftSegments s.head s.segments }

/-- Growth manager, from `grow_snake_sys`: when `grow` is nonzero, append
one segment at the current tail position (or at the head position when there
are no segments) and decrement `grow` by one. -/
def grow_snake (s : Snake) : Snake :=
  if s.grow = 0 then s
  else
    let spawn_pos :=
      match s.segments.getLast? with
      | Option.some tail => tail
      | Option.none => s.head
    { s with segments := s.segments ++ [spawn_pos], grow := s.grow - 1 }

/-- Out-of-bounds test of `wall_collision_sys`:
`head.x < 0 || head.x >= NUM_CELLS || head.y < 0 || head.y >= NUM_CELLS`. -/
def out_of_bounds (p : GridPosition) : Bool :=
  decide (p.x < 0) || decide (p.x ≥ NUM_CELLS) ||
  decide (p.y < 0) || decide (p.y ≥ NUM_CELLS)

/-- Death reset shared by `wall_collision_sys` and `snake_collision_sys`:
reset `dir`, `next_dir`, `segments` and `grow`, despawn the snake entities
and respawn a fresh head at `SNAKE_START_POS` (via `spawn_snake_sys`). -/
def reset_snake (_s : Snake) : Snake :=
  { head := SNAKE_START_POS,
    segments := [],
    dir := Direction.none,
    next_dir := Direction.none,
    grow := 0 }

/-- Wall collision detector, from `wall_collision_sys`. -/
def wall_collision (s : Snake) : Snake :=
  if out_of_bounds s.head then reset_snake s else s

/-- Self collision detector, from `snake_collision_sys`: the head position
equal to any segment position triggers the reset. -/
def snake_collision (s : Snake) : Snake :=
  if s.head ∈ s.segments then reset_snake s else s

/-- Random coordinate: models `rand::thread_rng().gen_range(0..NUM_CELLS)`
by the rand crate's contract (a value in the half-open range `[0, 20)`),
driven by an explicit seed. -/
def gen_range_cells (seed : Nat) : Int := ((seed % 20 : Nat) : Int)

/-- Food spawn position, from `get_random_pos`: one random column and one
random row. -/
def get_random_pos (c r : Nat) : GridPosition :=
  { x := gen_range_cells c, y := gen_range_cells r }

/-- Food collision detector, from `food_collision_sys`: when the food
position equals the head position, despawn the food, respawn it at a random
position (`spawn_food_sys` / `get_random_pos`) and increment `grow` (`u32`
addition). Returns the snake state and the food position. -/
def food_collision (s : Snake) (food : GridPosition) (c r : Nat) :
    Snake × GridPosition :=
  if food = s.head then
    ({ s with grow := (s.grow + 1) % 2 ^ 32 }, get_random_pos c r)
  else (s, food)

/-- Values already inside the `i32` range are fixed by `wrap32`. -/
theorem wrap32_eq_of_mem (z : Int) (h1 : -(2 ^ 31) ≤ z) (h2 : z < 2 ^ 31) :
    wrap32 z = z := by
  unfold wrap32
  rw [Int.emod_eq_of_lt (by omega) (by omega)]
  omega

/-- Both components of every direction delta lie in `[-1, 1]`. -/
theorem delta_abs_le (d : Direction) :
    -1 ≤ d.delta.1 ∧ d.delta.1 ≤ 1 ∧ -1 ≤ d.delta.2 ∧ d.delta.2 ≤ 1 := by
  cases d <;> exact (by decide)

/-- C1: for every snake state and requested direction, `request_direction`
sets `next_dir` (pending direction) to the request exactly when the request
is not the opposite of the current `dir` and `dir = next_dir`; in every
other case the state is left unchanged. In particular, with `dir = Up` and
`next_dir = Up`, requesting Down leaves `next_dir = Up`. -/
theorem input_resolver_guard (s : Snake) (d : Direction) :
    ((¬ s.dir.is_opposite d ∧ s.dir = s.next_dir) →
      request_direction s d = { s with next_dir := d }) ∧
    (¬ (¬ s.dir.is_opposite d ∧ s.dir = s.next_dir) →
      request_direction s d = s) ∧
    (s.dir = Direction.up → s.next_dir = Direction.up →
      (request_direction s Direction.down).next_dir = Direction.up) := by
  refine ⟨?_, ?_, ?_⟩
  · intro h
    unfold request_direction
    rw [if_pos h]
  · intro h
    unfold request_direction
    rw [if_neg h]
  · intro h1 h2
    have hc : ¬ (¬ (s.dir.is_opposite Direction.down : Bool) ∧
        s.dir = s.next_dir) := by
      intro hcon
      exact hcon.1 (by rw [h1]; rfl)
    unfold request_direction
    rw [if_neg hc]
    exact h2

/-- Witness for C1 at concrete states: an accepted request, a dropped
request (current and pending directions differ), and the Up/Down drop. -/
theorem input_resolver_guard_witness :
    request_direction
        { head := { x := 10, y := 10 }, segments := [], dir := Direction.up,
          next_dir := Direction.up, grow := 0 } Direction.left
      = { head := { x := 10, y := 10 }, segments := [], dir := Direction.up,
          next_dir := Direction.left, grow := 0 } ∧
    request_direction
        { head := { x := 10, y := 10 }, segments := [], dir := Direction.up,
          next_dir := Direction.left, grow := 0 } Direction.right
      = { head := { x := 10, y := 10 }, segments := [], dir := Direction.up,
          next_dir := Direction.left, grow := 0 } ∧
    (request_direction
        { head := { x := 10, y := 10 }, segments := [], dir := Direction.up,
          next_dir := Direction.up, grow := 0 } Direction.down).next_dir
      = Direction.up := by
  refine ⟨?_, ?_, ?_⟩
  · exact (input_resolver_guard
      { head := { x := 10, y := 10 }, segments := [], dir := Direction.up,
        next_dir := Direction.up, grow := 0 } Direction.left).1 (by decide)
  · exact (input_resolver_guard
      { head := { x := 10, y := 10 }, segments := [], dir := Direction.up,
        next_dir := Direction.left, grow := 0 } Direction.right).2.1 (by decide)
  · exact (input_resolver_guard
      { head := { x := 10, y := 10 }, segments := [], dir := Direction.up,
        next_dir := Direction.up, grow := 0 } Direction.down).2.2 rfl rfl

/-- C2 counterexample: from `dir = Up`, `next_dir = Up`, requesting Left and
then Right leaves `next_dir = Left`, not Right — the second request is
dropped because after the first one `dir` no longer equals `next_dir`. -/
theorem single_queued_turn_counterexample :
    (request_direction
        (request_direction
          { head := { x := 10, y := 10 }, segments := [], dir := Direction.up,
            next_dir := Direction.up, grow := 0 } Direction.left)
        Direction.right).next_dir = Direction.left ∧
    (request_direction
        (request_direction
          { head := { x := 10, y := 10 }, segments := [], dir := Direction.up,
            next_dir := Direction.up, grow := 0 } Direction.left)
        Direction.right).next_dir ≠ Direction.right := by
  decide

/-- C2 amended: from `dir = Up` and `next_dir = Up`, requesting Left and
then Right before the next tick results in `next_dir = Left`: the first
request wins and the later one is dropped, because once a turn is queued
`dir` no longer equals `next_dir`. -/
theorem single_queued_turn (s : Snake)
    (h1 : s.dir = Direction.up) (h2 : s.next_dir = Direction.up) :
    (request_direction (request_direction s Direction.left)
        Direction.right).next_dir = Direction.left := by
  have hfst : request_direction s Direction.left =
      { s with next_dir := Direction.left } := by
    unfold request_direction
    rw [if_pos ⟨by rw [h1]; exact (by decide), by rw [h1, h2]⟩]
  rw [hfst]
  have hc : ¬ (¬ (({ s with next_dir := Direction.left } : Snake).dir.is_opposite
      Direction.right : Bool) ∧
      ({ s with next_dir := Direction.left } : Snake).dir
        = ({ s with next_dir := Direction.left } : Snake).next_dir) := by
    intro hcon
    have : s.dir = Direction.left := hcon.2
    rw [h1] at this
    exact Direction.noConfusion this
  unfold request_direction
  rw [if_neg hc]

/-- Witness for C2's amended statement at a concrete state. -/
theorem single_queued_turn_witness :
    (request_direction
        (request_direction
          { head := { x := 10, y := 10 }, segments := [], dir := Direction.up,
            next_dir := Direction.up, grow := 0 } Direction.left)
        Direction.right).next_dir = Direction.left :=
  single_queued_turn
    { head := { x := 10, y := 10 }, segments := [], dir := Direction.up,
      next_dir := Direction.up, grow := 0 } rfl rfl

/-- C3: one `move_snake` tick on a snake with segments `[s0, s1, s2]` first
commits `next_dir` into `dir`, then moves the head by that direction's
delta and shifts the body to `[old head, s0, s1]` — nothing appended or
removed; `delta None = (0,0)`, so with `next_dir = None` the head stays
put. The head coordinates are assumed inside the `i32` range so that the
one-cell move does not wrap. -/
theorem movement_shift (s : Snake) (s0 s1 s2 : GridPosition)
    (hseg : s.segments = [s0, s1, s2])
    (hx1 : -(2 ^ 31) < s.head.x) (hx2 : s.head.x < 2 ^ 31 - 1)
    (hy1 : -(2 ^ 31) < s.head.y) (hy2 : s.head.y < 2 ^ 31 - 1) :
    move_snake s =
      { head := { x := s.head.x + s.next_dir.delta.1,
                  y := s.head.y + s.next_dir.delta.2 },
        segments := [s.head, s0, s1],
        dir := s.next_dir,
        next_dir := s.next_dir,
        grow := s.grow } ∧
    Direction.none.delta = (0, 0) ∧
    (s.next_dir = Direction.none → (move_snake s).head = s.head) := by
  have hb := delta_abs_le s.next_dir
  have hwx : wrap32 (s.head.x + s.next_dir.delta.1)
      = s.head.x + s.next_dir.delta.1 :=
    wrap32_eq_of_mem _ (by omega) (by omega)
  have hwy : wrap32 (s.head.y + s.next_dir.delta.2)
      = s.head.y + s.next_dir.delta.2 :=
    wrap32_eq_of_mem _ (by omega) (by omega)
  refine ⟨?_, rfl, ?_⟩
  · unfold move_snake
    simp only [hseg, shiftSegments, hwx, hwy]
  · intro hn
    unfold move_snake
    simp only [hn]
    show ({ x := wrap32 (s.head.x + 0), y := wrap32 (s.head.y + 0) } :
      GridPosition) = s.head
    ext
    · simp only [add_zero]
      exact wrap32_eq_of_mem _ (by omega) (by omega)
    · simp only [add_zero]
      exact wrap32_eq_of_mem _ (by omega) (by omega)

/-- Witness for C3 at a concrete snake moving Up from (5,5). -/
theorem movement_shift_witness :
    move_snake
        { head := { x := 5, y := 5 },
          segments := [{ x := 5, y := 4 }, { x := 5, y := 3 },
                       { x := 5, y := 2 }],
          dir := Direction.up, next_dir := Direction.up, grow := 0 }
      = { head := { x := 5, y := 6 },
          segments := [{ x := 5, y := 5 }, { x := 5, y := 4 },
                       { x := 5, y := 3 }],
          dir := Direction.up, next_dir := Direction.up, grow := 0 } := by
  have h := movement_shift
    { head := { x := 5, y := 5 },
      segments := [{ x := 5, y := 4 }, { x := 5, y := 3 },
                   { x := 5, y := 2 }],
      dir := Direction.up, next_dir := Direction.up, grow := 0 }
    { x := 5, y := 4 } { x := 5, y := 3 } { x := 5, y := 2 } rfl
    (by norm_num) (by norm_num) (by norm_num) (by norm_num)
  simpa using h.1

/-- C4: the wall check fires exactly when the head satisfies
`x < 0 ∨ x ≥ 20 ∨ y < 0 ∨ y ≥ 20` (and then the wall system resets the
snake, otherwise it leaves the state alone); in particular a head at (19,5)
moving Right ends at (20,5), which is out of bounds. -/
theorem wall_check (s : Snake) :
    (out_of_bounds s.head = true ↔
      (s.head.x < 0 ∨ s.head.x ≥ NUM_CELLS ∨
       s.head.y < 0 ∨ s.head.y ≥ NUM_CELLS)) ∧
    (out_of_bounds s.head = true → wall_collision s = reset_snake s) ∧
    (out_of_bounds s.head = false → wall_collision s = s) ∧
    (s.head = { x := 19, y := 5 } → s.next_dir = Direction.right →
      (move_snake s).head = { x := 20, y := 5 } ∧
      out_of_bounds (move_snake s).head = true) := by
  refine ⟨?_, ?_, ?_, ?_⟩
  · simp [out_of_bounds, or_assoc]
  · intro h
    unfold wall_collision
    rw [if_pos h]
  · intro h
    unfold wall_collision
    rw [if_neg (by simp [h])]
  · intro h1 h2
    have hh : (move_snake s).head = { x := 20, y := 5 } := by
      unfold move_snake
      simp only [h1, h2]
      show ({ x := wrap32 (19 + 1), y := wrap32 (5 + 0) } : GridPosition)
        = { x := 20, y := 5 }
      ext
      · exact (by decide)
      · exact (by decide)
    exact ⟨hh, by rw [hh]; decide⟩

/-- Witness for C4: an out-of-bounds head resets, an in-bounds head is left
alone, and the (19,5)-moving-Right boundary example. -/
theorem wall_check_witness :
    wall_collision
        { head := { x := 20, y := 5 }, segments := [], dir := Direction.right,
          next_dir := Direction.right, grow := 0 }
      = reset_snake
        { head := { x := 20, y := 5 }, segments := [], dir := Direction.right,
          next_dir := Direction.right, grow := 0 } ∧
    wall_collision
        { head := { x := 3, y := 4 }, segments := [], dir := Direction.right,
          next_dir := Direction.right, grow := 0 }
      = { head := { x := 3, y := 4 }, segments := [], dir := Direction.right,
          next_dir := Direction.right, grow := 0 } ∧
    (move_snake
        { head := { x := 19, y := 5 }, segments := [], dir := Direction.right,
          next_dir := Direction.right, grow := 0 }).head
      = { x := 20, y := 5 } := by
  refine ⟨?_, ?_, ?_⟩
  · exact (wall_check
      { head := { x := 20, y := 5 }, segments := [], dir := Direction.right,
        next_dir := Direction.right, grow := 0 }).2.1 (by decide)
  · exact (wall_check
      { head := { x := 3, y := 4 }, segments := [], dir := Direction.right,
        next_dir := Direction.right, grow := 0 }).2.2.1 (by decide)
  · exact ((wall_check
      { head := { x := 19, y := 5 }, segments := [], dir := Direction.right,
        next_dir := Direction.right, grow := 0 }).2.2.2 rfl rfl).1

/-- C5: both Died paths — wall collision and self collision — produce the
canonical reset state: empty segments, both directions None, zero pending
growth, and a fresh snake at the center of the grid,
`SNAKE_START_POS = (NUM_CELLS / 2, NUM_CELLS / 2) = (10, 10)`. -/
theorem died_reset (s : Snake) :
    (out_of_bounds s.head = true →
      wall_collision s =
        { head := SNAKE_START_POS, segments := [], dir := Direction.none,
          next_dir := Direction.none, grow := 0 }) ∧
    (s.head ∈ s.segments →
      snake_collision s =
        { head := SNAKE_START_POS, segments := [], dir := Direction.none,
          next_dir := Direction.none, grow := 0 }) ∧
    SNAKE_START_POS = { x := 10, y := 10 } := by
  refine ⟨?_, ?_, by decide⟩
  · intro h
    unfold wall_collision
    rw [if_pos h]
    rfl
  · intro h
    unfold snake_collision
    rw [if_pos h]
    rfl

/-- Witness for C5: a wall death and a self-collision death, both landing in
the canonical reset state. -/
theorem died_reset_witness :
    wall_collision
        { head := { x := -1, y := 0 }, segments := [], dir := Direction.left,
          next_dir := Direction.left, grow := 2 }
      = { head := SNAKE_START_POS, segments := [], dir := Direction.none,
          next_dir := Direction.none, grow := 0 } ∧
    snake_collision
        { head := { x := 4, y := 4 },
          segments := [{ x := 4, y := 5 }, { x := 4, y := 4 }],
          dir := Direction.down, next_dir := Direction.down, grow := 0 }
      = { head := SNAKE_START_POS, segments := [], dir := Direction.none,
          next_dir := Direction.none, grow := 0 } := by
  refine ⟨?_, ?_⟩
  · exact (died_reset
      { head := { x := -1, y := 0 }, segments := [], dir := Direction.left,
        next_dir := Direction.left, grow := 2 }).1 (by decide)
  · exact (died_reset
      { head := { x := 4, y := 4 },
        segments := [{ x := 4, y := 5 }, { x := 4, y := 4 }],
        dir := Direction.down, next_dir := Direction.down, grow := 0 }).2.1
      (by decide)

/-- C6 counterexample: head (5,5), no segments, direction Right, food on the
head. Eating sets `grow = 1`, and the next move + grow sequence appends the
single new segment at the post-move head (6,5) — not at the pre-move head
position (5,5) as the claim states. -/
theorem growth_placement_counterexample :
    (food_collision
        { head := { x := 5, y := 5 }, segments := [], dir := Direction.right,
          next_dir := Direction.right, grow := 0 }
        { x := 5, y := 5 } 0 0).1.grow = 1 ∧
    (grow_snake (move_snake
        (food_collision
          { head := { x := 5, y := 5 }, segments := [], dir := Direction.right,
            next_dir := Direction.right, grow := 0 }
          { x := 5, y := 5 } 0 0).1)).segments
      = [{ x := 6, y := 5 }] ∧
    ({ x := 6, y := 5 } : GridPosition) ≠ { x := 5, y := 5 } := by
  decide

/-- Helper: growing a snake with one pending credit and no segments appends
exactly the current head position and zeroes the credit. -/
theorem grow_snake_no_segments (s : Snake) (hseg : s.segments = [])
    (hg : s.grow = 1) : grow_snake s = { s with segments := [s.head], grow := 0 } := by
  unfold grow_snake
  rw [if_neg (by omega)]
  simp [hseg, hg]

/-- C6 amended: starting with zero segments and zero pending growth, one
food hit makes `grow = 1`, and the following move + grow sequence appends
exactly one segment at the post-move (current) head position, with `grow`
decremented back to 0. -/
theorem growth_placement (s : Snake) (f : GridPosition) (c r : Nat)
    (hseg : s.segments = []) (hgrow : s.grow = 0) (hf : f = s.head) :
    (food_collision s f c r).1.grow = 1 ∧
    (grow_snake (move_snake (food_collision s f c r).1)).segments
      = [(move_snake (food_collision s f c r).1).head] ∧
    (grow_snake (move_snake (food_collision s f c r).1)).grow = 0 := by
  have h1 : (food_collision s f c r).1 = { s with grow := 1 } := by
    unfold food_collision
    rw [if_pos hf]
    simp [hgrow]
  have h2 : (move_snake { s with grow := 1 }).segments = [] := by
    unfold move_snake
    simp [hseg, shiftSegments]
  have h3 : (move_snake { s with grow := 1 }).grow = 1 := by
    unfold move_snake
    rfl
  have h4 := grow_snake_no_segments (move_snake { s with grow := 1 }) h2 h3
  rw [h1, h4]
  exact ⟨rfl, rfl, rfl⟩

/-- Witness for C6's amended statement at head (5,5) moving Right. -/
theorem growth_placement_witness :
    (food_collision
        { head := { x := 5, y := 5 }, segments := [], dir := Direction.right,
          next_dir := Direction.right, grow := 0 }
        { x := 5, y := 5 } 1 2).1.grow = 1 ∧
    (grow_snake (move_snake
        (food_collision
          { head := { x := 5, y := 5 }, segments := [], dir := Direction.right,
            next_dir := Direction.right, grow := 0 }
          { x := 5, y := 5 } 1 2).1)).segments
      = [(move_snake
          (food_collision
            { head := { x := 5, y := 5 }, segments := [], dir := Direction.right,
              next_dir := Direction.right, grow := 0 }
            { x := 5, y := 5 } 1 2).1).head] ∧
    (grow_snake (move_snake
        (food_collision
          { head := { x := 5, y := 5 }, segments := [], dir := Direction.right,
            next_dir := Direction.right, grow := 0 }
          { x := 5, y := 5 } 1 2).1)).grow = 0 :=
  growth_placement
    { head := { x := 5, y := 5 }, segments := [], dir := Direction.right,
      next_dir := Direction.right, grow := 0 }
    { x := 5, y := 5 } 1 2 rfl rfl rfl

/-- C8: the Died-triggered reset is idempotent — resetting an already-reset
snake reassigns the same defaults, so two resets in a row equal one. -/
theorem reset_idempotent (s : Snake) :
    reset_snake (reset_snake s) = reset_snake s := rfl

/-- C9: every food position produced by `get_random_pos` lies inside the
grid, in `[0, NUM_CELLS) × [0, NUM_CELLS)` with `NUM_CELLS = 20`, for every
pair of random draws. -/
theorem food_spawn_in_bounds (c r : Nat) :
    0 ≤ (get_random_pos c r).x ∧ (get_random_pos c r).x < NUM_CELLS ∧
    0 ≤ (get_random_pos c r).y ∧ (get_random_pos c r).y < NUM_CELLS := by
  unfold get_random_pos gen_range_cells NUM_CELLS
  refine ⟨Int.natCast_nonneg _, ?_, Int.natCast_nonneg _, ?_⟩
  · show ((c % 20 : Nat) : Int) < 20
    exact_mod_cast Nat.mod_lt c (by norm_num)
  · show ((r % 20 : Nat) : Int) < 20
    exact_mod_cast Nat.mod_lt r (by norm_num)

/-- C10: when the food position equals the head position, the food handler
increments `grow` by exactly one and moves the food to the spawner's fresh
random position, while head, segments, `dir` and `next_dir` all keep their
prior values — no reset happens on a food hit. -/
theorem food_hit_frame (s : Snake) (f : GridPosition) (c r : Nat)
    (hf : f = s.head) (hg : s.grow + 1 < 2 ^ 32) :
    (food_collision s f c r).1.grow = s.grow + 1 ∧
    (food_collision s f c r).1.head = s.head ∧
    (food_collision s f c r).1.segments = s.segments ∧
    (food_collision s f c r).1.dir = s.dir ∧
    (food_collision s f c r).1.next_dir = s.next_dir ∧
    (food_collision s f c r).2 = get_random_pos c r := by
  unfold food_collision
  rw [if_pos hf]
  exact ⟨Nat.mod_eq_of_lt hg, rfl, rfl, rfl, rfl, rfl⟩

/-- Witness for C10 at a concrete snake with a segment and food on the head. -/
theorem food_hit_frame_witness :
    (food_collision
        { head := { x := 5, y := 5 }, segments := [{ x := 5, y := 4 }],
          dir := Direction.up, next_dir := Direction.up, grow := 0 }
        { x := 5, y := 5 } 1 2).1.grow = 0 + 1 ∧
    (food_collision
        { head := { x := 5, y := 5 }, segments := [{ x := 5, y := 4 }],
          dir := Direction.up, next_dir := Direction.up, grow := 0 }
        { x := 5, y := 5 } 1 2).1.head = { x := 5, y := 5 } ∧
    (food_collision
        { head := { x := 5, y := 5 }, segments := [{ x := 5, y := 4 }],
          dir := Direction.up, next_dir := Direction.up, grow := 0 }
        { x := 5, y := 5 } 1 2).1.segments = [{ x := 5, y := 4 }] ∧
    (food_collision
        { head := { x := 5, y := 5 }, segments := [{ x := 5, y := 4 }],
          dir := Direction.up, next_dir := Direction.up, grow := 0 }
        { x := 5, y := 5 } 1 2).1.dir = Direction.up ∧
    (food_collision
        { head := { x := 5, y := 5 }, segments := [{ x := 5, y := 4 }],
          dir := Direction.up, next_dir := Direction.up, grow := 0 }
        { x := 5, y := 5 } 1 2).1.next_dir = Direction.up ∧
    (food_collision
        { head := { x := 5, y := 5 }, segments := [{ x := 5, y := 4 }],
          dir := Direction.up, next_dir := Direction.up, grow := 0 }
        { x := 5, y := 5 } 1 2).2 = get_random_pos 1 2 :=
  food_hit_frame
    { head := { x := 5, y := 5 }, segments := [{ x := 5, y := 4 }],
      dir := Direction.up, next_dir := Direction.up, grow := 0 }
    { x := 5, y := 5 } 1 2 rfl (by norm_num)

end RustySnake
